import Mathlib

/-!
Verification of the matching/ranking engine of a job-matching backend
(`services/matching.py`, `routers/matching.py`).

The embedding follows the Python source: machine floats become `ℚ`,
calendar dates become `ℤ` (days), `None`-able values become `Option`,
Python `round(x, 2)` becomes `round2`, SQLAlchemy rows become structures,
and the DB session becomes an explicit `DBState` value.  The SBERT backend
is disabled (`ENABLE_SBERT` unset is the default), so `sbert_similarity`
is the lexical Jaccard fallback of the source.
-/

set_option linter.unusedVariables false

namespace Matching

/-- Split a character list at whitespace runs, accumulating the current
word in reverse; auxiliary for `tokens`. -/
def wsSplit : List Char → List Char → List String
  | [], cur => if cur = [] then [] else [String.mk cur.reverse]
  | c :: rest, cur =>
    if c.isWhitespace then
      if cur = [] then wsSplit rest [] else String.mk cur.reverse :: wsSplit rest []
    else wsSplit rest (c :: cur)

/-- Whitespace-split tokens of a string, dropping empty pieces:
the token list Python's `text.split()` produces. -/
def tokens (s : String) : List String :=
  wsSplit s.data []

/-- `set(text.split())` of the source: the token set. -/
def tokenSet (s : String) : Finset String :=
  (tokens s).toFinset

/-- `sbert_similarity` (services/matching.py, fallback path, SBERT disabled):
Jaccard similarity of the two token sets; `0` when either side is empty. -/
def sbert_similarity (text1 text2 : String) : ℚ :=
  let set1 := tokenSet text1
  let set2 := tokenSet text2
  if set1 = ∅ ∨ set2 = ∅ then 0
  else ((set1 ∩ set2).card : ℚ) / ((set1 ∪ set2).card : ℚ)

/-- Python `round(x, 2)`: round to two decimal places. -/
def round2 (x : ℚ) : ℚ :=
  ((round (x * 100) : ℤ) : ℚ) / 100

/-- `calculate_weight` (services/matching.py): priority weight of a factor. -/
def calculate_weight (field : String) (priority_list : List String) : ℚ :=
  if field ∈ priority_list then
    let rank := priority_list.indexOf field
    if rank = 0 then 3/2 else if rank = 1 then 13/10 else if rank = 2 then 11/10 else 1
  else 1

/-- `CandidateData` (schemas.py). -/
structure CandidateData where
  name : String
  desired_job : String
  desired_location : String
  desired_salary : ℚ
  available_start_date : ℤ
  work_style_type : String
  skills : List String
  job_preference : String
  experience_years : ℚ
  preference_tags : List String
  priority_order : List String

/-- `JobData` (schemas.py). -/
structure JobData where
  job_title : String
  job_location : String
  salary : ℚ
  availability_required : ℤ
  work_style_type : String
  required_skills : List String
  optional_skills : List String
  culture_tags : List String
  experience_required : Option ℚ

/-- `" ".join(l)`. -/
def joinWords (l : List String) : String :=
  String.intercalate " " l

/-- Factor ① of `match_score_logic`: skill similarity. -/
def skill_component (c : CandidateData) (j : JobData) : ℚ :=
  sbert_similarity (joinWords c.skills) (joinWords (j.required_skills ++ j.optional_skills))

/-- Factor ② of `match_score_logic`: job-title similarity. -/
def job_title_component (c : CandidateData) (j : JobData) : ℚ :=
  sbert_similarity c.job_preference j.job_title

/-- Factor ③ of `match_score_logic`: experience fit. -/
def experience_component (c : CandidateData) (j : JobData) : ℚ :=
  if c.experience_years < 1 then 0
  else
    match j.experience_required with
    | none => 1
    | some req =>
      let gap := req - c.experience_years
      if gap ≤ 0 then 1 else if gap ≤ 3 then 1 - gap / 6 else 1/2

/-- Factor ④ of `match_score_logic`: exact location match. -/
def location_component (c : CandidateData) (j : JobData) : ℚ :=
  if c.desired_location = j.job_location then 1 else 0

/-- Factor ⑤ of `match_score_logic`: salary fit (before the final `min _ 1`). -/
def salary_component (c : CandidateData) (j : JobData) : ℚ :=
  let offer := j.salary
  if offer ≤ 0 then 0
  else
    let gap := |c.desired_salary - offer|
    let raw := max 0 (1 - gap / 200)
    if c.desired_salary ≤ offer then min 1 (raw * (21/20)) else raw

/-- Factor ⑥ of `match_score_logic`: preference-tag similarity. -/
def preference_component (c : CandidateData) (j : JobData) : ℚ :=
  let tags1 := joinWords c.preference_tags
  let tags2 := joinWords j.culture_tags
  if tags1 ≠ "" ∧ tags2 ≠ "" then sbert_similarity tags1 tags2 else 0

/-- Factor ⑦ of `match_score_logic`: availability fit. -/
def availability_component (c : CandidateData) (j : JobData) : ℚ :=
  let days_diff := j.availability_required - c.available_start_date
  if days_diff ≤ 30 then 1 else if days_diff ≤ 90 then 7/10 else 3/10

/-- Factor ⑧ of `match_score_logic`: work-style similarity. -/
def work_style_component (c : CandidateData) (j : JobData) : ℚ :=
  if c.work_style_type ≠ "" ∧ j.work_style_type ≠ "" then
    sbert_similarity c.work_style_type j.work_style_type
  else 0

/-- The `breakdown` dict of `match_score_logic`, in insertion order. -/
def score_breakdown (c : CandidateData) (j : JobData) : List (String × ℚ) :=
  [("skill_score", round2 (skill_component c j)),
   ("job_title_score", round2 (job_title_component c j)),
   ("experience_score", round2 (experience_component c j)),
   ("location_score", location_component c j),
   ("salary_score", round2 (min (salary_component c j) 1)),
   ("preference_score", round2 (preference_component c j)),
   ("availability_score", round2 (availability_component c j)),
   ("work_style_score", round2 (work_style_component c j))]

/-- The weighted-average loop at the end of `match_score_logic`. -/
def weighted_total (breakdown : List (String × ℚ)) (priority_list : List String) : ℚ :=
  let weighted_scores := breakdown.map (fun p => p.2 * calculate_weight p.1 priority_list)
  let weights := breakdown.map (fun p => calculate_weight p.1 priority_list)
  round2 ((if weights = [] then 0 else weighted_scores.sum / weights.sum) * 100)

/-- `match_score_logic` (services/matching.py).  Note that the source's
weighting loop reads `candidate.priority_order`, not the `priority_order`
parameter. -/
def match_score_logic (candidate : CandidateData) (job : JobData)
    (priority_order : List String) : ℚ × List (String × ℚ) :=
  let breakdown := score_breakdown candidate job
  (weighted_total breakdown candidate.priority_order, breakdown)

/-! ### Basic facts about the similarity fallback and rounding -/

@[simp] lemma joinWords_nil : joinWords [] = "" := rfl

lemma tokenSet_eq_empty {a : String} (h : tokens a = []) : tokenSet a = ∅ := by
  simp [tokenSet, h]

lemma sbert_of_left_nil {a b : String} (h : tokens a = []) : sbert_similarity a b = 0 := by
  simp [sbert_similarity, tokenSet_eq_empty h]

lemma sbert_of_right_nil {a b : String} (h : tokens b = []) : sbert_similarity a b = 0 := by
  simp [sbert_similarity, tokenSet_eq_empty h]

@[simp] lemma sbert_empty_left (b : String) : sbert_similarity "" b = 0 :=
  sbert_of_left_nil rfl

@[simp] lemma sbert_empty_right (a : String) : sbert_similarity a "" = 0 :=
  sbert_of_right_nil rfl

lemma sbert_comm (a b : String) : sbert_similarity a b = sbert_similarity b a := by
  by_cases h1 : tokenSet a = ∅ <;> by_cases h2 : tokenSet b = ∅ <;>
    simp [sbert_similarity, h1, h2, Finset.inter_comm, Finset.union_comm]

lemma sbert_nonneg (a b : String) : 0 ≤ sbert_similarity a b := by
  by_cases h : tokenSet a = ∅ ∨ tokenSet b = ∅
  · simp [sbert_similarity, h]
  · simp only [sbert_similarity]
    rw [if_neg h]
    positivity

lemma sbert_le_one (a b : String) : sbert_similarity a b ≤ 1 := by
  by_cases h : tokenSet a = ∅ ∨ tokenSet b = ∅
  · simp [sbert_similarity, h]
  · simp only [sbert_similarity]
    rw [if_neg h]
    push_neg at h
    have hne : (tokenSet a ∪ tokenSet b).Nonempty := by
      rcases Finset.nonempty_iff_ne_empty.mpr h.1 with ⟨x, hx⟩
      exact ⟨x, Finset.mem_union_left _ hx⟩
    have hpos : (0 : ℚ) < ((tokenSet a ∪ tokenSet b).card : ℚ) := by
      exact_mod_cast Finset.card_pos.mpr hne
    rw [div_le_one hpos]
    have hsub : tokenSet a ∩ tokenSet b ⊆ tokenSet a ∪ tokenSet b :=
      Finset.inter_subset_left.trans Finset.subset_union_left
    exact_mod_cast Finset.card_le_card hsub

@[simp] lemma round2_zero : round2 0 = 0 := by
  norm_num [round2]

@[simp] lemma round2_one : round2 1 = 1 := by
  norm_num [round2, round_eq]

lemma round2_mono {x y : ℚ} (h : x ≤ y) : round2 x ≤ round2 y := by
  unfold round2
  have : round (x * 100) ≤ round (y * 100) := by
    rw [round_eq, round_eq]
    exact Int.floor_mono (by linarith)
  have hc : ((round (x * 100) : ℤ) : ℚ) ≤ ((round (y * 100) : ℤ) : ℚ) := by exact_mod_cast this
  linarith

lemma round2_nonneg {x : ℚ} (h : 0 ≤ x) : 0 ≤ round2 x := by
  have := round2_mono h
  simpa using this

lemma round2_le_one {x : ℚ} (h : x ≤ 1) : round2 x ≤ 1 := by
  have := round2_mono h
  simpa using this

lemma round2_hundred : round2 100 = 100 := by
  norm_num [round2, round_eq]

lemma round2_le_hundred {x : ℚ} (h : x ≤ 100) : round2 x ≤ 100 := by
  have := round2_mono h
  rwa [round2_hundred] at this

lemma round2_idem (x : ℚ) : round2 (round2 x) = round2 x := by
  unfold round2
  have h : ((round (x * 100) : ℤ) : ℚ) / 100 * 100 = ((round (x * 100) : ℤ) : ℚ) := by
    field_simp
  rw [h, round_intCast]

/-! ### Priority normalization (routers/matching.py) -/

/-- Python `str.strip()`: drop leading and trailing whitespace. -/
def pyStrip (s : String) : String :=
  String.mk (((s.data.dropWhile Char.isWhitespace).reverse.dropWhile Char.isWhitespace).reverse)

/-- Python `str.lower()` (ASCII, which covers every alias-table key). -/
def pyLower (s : String) : String :=
  String.mk (s.data.map Char.toLower)

/-- The alias table of `_normalize_priority_code`, as an association list
in source order. -/
def alias_table : List (String × String) :=
  [("skill", "skill_score"), ("skills", "skill_score"), ("skill_score", "skill_score"),
   ("job_title", "job_title_score"), ("title", "job_title_score"),
   ("job_title_score", "job_title_score"),
   ("salary", "salary_score"), ("comp", "salary_score"), ("compensation", "salary_score"),
   ("salary_score", "salary_score"),
   ("location", "location_score"), ("place", "location_score"),
   ("location_score", "location_score"),
   ("availability", "availability_score"), ("start_date", "availability_score"),
   ("availability_required", "availability_score"), ("availability_score", "availability_score"),
   ("work_style", "work_style_score"), ("workstyle", "work_style_score"),
   ("work_style_type", "work_style_score"), ("work_style_score", "work_style_score"),
   ("preference", "preference_score"), ("culture", "preference_score"),
   ("tags", "preference_score"), ("preference_score", "preference_score"),
   ("experience", "experience_score"), ("years", "experience_score"),
   ("experience_required", "experience_score"), ("experience_score", "experience_score")]

/-- `_normalize_priority_code` (routers/matching.py): `None`/empty raw codes
give `none` (Python `if not raw`), otherwise the trimmed lower-cased code is
looked up in the alias table (`aliases.get(code)`). -/
def normalize_priority_code (raw : Option String) : Option String :=
  match raw with
  | none => none
  | some s => if s = "" then none else alias_table.lookup (pyLower (pyStrip s))

/-- A `job_seeker_priorities` row, as the concrete `JobSeekerPriority`
model of models/job_seeker.py declares it: `id`, `job_seeker_id`,
`priority_rank` and `priority_category` (the never-read `created_at`
timestamp is not modelled).  The model has none of the attributes the
router's defensive probing looks for. -/
structure JobSeekerPriority where
  id : ℤ
  job_seeker_id : ℤ
  priority_rank : Option ℤ
  priority_category : Option String
deriving DecidableEq

/-- The `raw_code` probing of `_fetch_priority_order`, evaluated against
the concrete model: `hasattr(r, "matching_field")`,
`hasattr(r, "category_code")` and `hasattr(r, "category")` are all false —
the model's columns are `priority_rank` and `priority_category` — so every
branch is skipped and `raw_code` stays `None` for every row.  The stored
`priority_category` column is never consulted. -/
def row_raw_code (r : JobSeekerPriority) : Option String :=
  none

/-- `_fetch_priority_order` (routers/matching.py): the seeker's rows,
ordered ascending by the sort column — the `getattr` chain on the model
class probes `priority_order` / `rank` / `sort_order`, misses the actual
rank column `priority_rank`, and falls back to the record `id` — then the
per-row code (constantly `None`, see `row_raw_code`) is normalized and
appended when non-absent and not already present, with the default order
when the result is empty. -/
def fetch_priority_order (rows : List JobSeekerPriority) (seeker_id : ℤ) : List String :=
  let sorted_rows :=
    (rows.filter (fun r => r.job_seeker_id = seeker_id)).mergeSort
      (fun a b => decide (a.id ≤ b.id))
  let order := sorted_rows.foldl
    (fun order r =>
      match normalize_priority_code (row_raw_code r) with
      | some normalized => if normalized ∈ order then order else order ++ [normalized]
      | none => order)
    []
  if order = [] then ["skill_score", "job_title_score", "salary_score"] else order

/-! ### ORM rows and the DB session (models/, database.py) -/

/-- A `skills` row reached through a relationship. -/
structure SkillRef where
  name : String

/-- A `tags` row reached through a relationship. -/
structure TagRef where
  name : String

/-- A `job_posting_skills` link row. -/
structure JobPostingSkill where
  skill_id : ℕ
  is_mandatory : Bool
  skill : Option SkillRef

/-- A `job_posting_tags` link row. -/
structure JobPostingTag where
  tag_id : ℕ
  tag : Option TagRef

/-- A `job_postings` row. -/
structure JobPosting where
  id : ℕ
  title : Option String
  location : Option String
  salary : Option ℚ
  start_date : Option ℤ
  work_style_type : Option String
  skills : List JobPostingSkill
  tags : List JobPostingTag

/-- A `job_seeker_skills` link row. -/
structure JobSeekerSkill where
  skill_id : ℕ
  skill : Option SkillRef

/-- A `job_seeker_tags` link row. -/
structure JobSeekerTag where
  tag_id : ℕ
  tag : Option TagRef

/-- A `job_histories` row. -/
structure JobHistory where
  years_of_experience : Option ℚ

/-- A `job_seekers` row. -/
structure JobSeeker where
  id : ℤ
  name : String
  desired_job : Option String
  desired_location : Option String
  desired_salary : Option ℚ
  available_start_date : Option ℤ
  work_style_type : Option String
  skills : List JobSeekerSkill
  tags : List JobSeekerTag
  histories : List JobHistory

/-- A `matching_scores` row (MatchingScore, models/matching.py). -/
structure MatchingScore where
  job_seeker_id : ℤ
  job_posting_id : ℕ
  score : ℚ
  breakdown : List (String × ℚ)
  explanation : Option String

/-- The DB session: table contents plus a flag modelling whether the
(best-effort) `db.add`/`db.commit` of a `MatchingScore` raises. -/
structure DBState where
  job_seekers : List JobSeeker
  job_postings : List JobPosting
  job_seeker_priorities : List JobSeekerPriority
  matching_scores : List MatchingScore
  commit_fails : Bool

/-- `db.get(JobSeeker, sid)`. -/
def db_get_seeker (db : DBState) (sid : ℤ) : Option JobSeeker :=
  db.job_seekers.find? (fun s => s.id = sid)

/-- `db.get(JobPosting, jid)`. -/
def db_get_job (db : DBState) (jid : ℕ) : Option JobPosting :=
  db.job_postings.find? (fun j => j.id = jid)

/-! ### Service layer (services/matching.py) -/

/-- `MatchResponse` (schemas.py). -/
structure MatchResponse where
  match_score : ℚ
  message : String
  breakdown : List (String × ℚ)

/-- `MatchWithReasonResponse` (schemas.py). -/
structure MatchWithReasonResponse where
  match_score : ℚ
  message : String
  breakdown : List (String × ℚ)
  reason : String

/-- `MatchRankingItem` (schemas.py). -/
structure MatchRankingItem where
  job_posting_id : ℕ
  title : String
  score : ℚ
  breakdown : List (String × ℚ)

/-- `MatchRankingResponse` (schemas.py). -/
structure MatchRankingResponse where
  job_seeker_id : ℤ
  results : List MatchRankingItem

/-- Skill name resolution of `resolve_job_from_db` / `resolve_candidate_from_db`:
the related `skills.name` when the relationship is loaded, else
`f"skill_{skill_id}"`. -/
def job_skill_name (link : JobPostingSkill) : String :=
  match link.skill with
  | some sk => sk.name
  | none => "skill_" ++ toString link.skill_id

/-- Tag name resolution, as for `job_skill_name`. -/
def job_tag_name (t : JobPostingTag) : String :=
  match t.tag with
  | some tg => tg.name
  | none => "tag_" ++ toString t.tag_id

/-- `resolve_candidate_from_db`-side skill name resolution. -/
def seeker_skill_name (s : JobSeekerSkill) : String :=
  match s.skill with
  | some sk => sk.name
  | none => "skill_" ++ toString s.skill_id

/-- `resolve_candidate_from_db`-side tag name resolution. -/
def seeker_tag_name (t : JobSeekerTag) : String :=
  match t.tag with
  | some tg => tg.name
  | none => "tag_" ++ toString t.tag_id

/-- `resolve_job_from_db` (services/matching.py).  `today` stands for
`date.today()`. -/
def resolve_job_from_db (today : ℤ) (job : JobPosting) : JobData :=
  { job_title := job.title.getD ""
    job_location := job.location.getD ""
    salary := job.salary.getD 0
    availability_required := job.start_date.getD today
    work_style_type := job.work_style_type.getD ""
    required_skills := (job.skills.filter (fun l => l.is_mandatory)).map job_skill_name
    optional_skills := (job.skills.filter (fun l => ¬ l.is_mandatory)).map job_skill_name
    culture_tags := job.tags.map job_tag_name
    experience_required := none }

/-- `resolve_candidate_from_db` (services/matching.py).  The source carries
`# TODO: prioritiesをjob_seeker_prioritiesから取得して、matching_field順に並べる`
and hard-codes the default priority order. -/
def resolve_candidate_from_db (today : ℤ) (seeker : JobSeeker) : CandidateData :=
  { name := seeker.name
    desired_job := seeker.desired_job.getD ""
    desired_location := seeker.desired_location.getD ""
    desired_salary := seeker.desired_salary.getD 0
    available_start_date := seeker.available_start_date.getD today
    work_style_type := seeker.work_style_type.getD ""
    skills := seeker.skills.map seeker_skill_name
    job_preference := seeker.desired_job.getD ""
    experience_years := (seeker.histories.map (fun h => h.years_of_experience.getD 0)).sum
    preference_tags := seeker.tags.map seeker_tag_name
    priority_order := ["skill_score", "job_title_score", "salary_score"] }

/-- The success message `f"{name}さんは「{title}」に{total_score}%マッチしています。"`. -/
def match_message (name title : String) (total : ℚ) : String :=
  name ++ "さんは「" ++ title ++ "」に" ++ toString total ++ "%マッチしています。"

/-- `match_by_id_service` (services/matching.py).  Returns the response (or
the `ValueError` text) together with the resulting session state; the
best-effort `MatchingScore` write is rolled back — leaving
`matching_scores` untouched — when the commit raises. -/
def match_by_id_service (seeker_id : ℤ) (job_id : ℕ) (db : DBState) (today : ℤ) :
    Except String MatchResponse × DBState :=
  match db_get_seeker db seeker_id, db_get_job db job_id with
  | some seeker, some job =>
    let candidate := resolve_candidate_from_db today seeker
    let jobdata := resolve_job_from_db today job
    let sb := match_score_logic candidate jobdata candidate.priority_order
    let db2 :=
      if db.commit_fails then db
      else { db with matching_scores := db.matching_scores ++
              [{ job_seeker_id := seeker.id, job_posting_id := job.id,
                 score := sb.1, breakdown := sb.2, explanation := none }] }
    (Except.ok
      { match_score := sb.1
        message := match_message candidate.name jobdata.job_title sb.1
        breakdown := sb.2 }, db2)
  | _, _ => (Except.error "job_seeker or job_posting not found", db)

/-- The RAG prompt string of `match_by_id_with_reason_service`. -/
def user_info_string (candidate : CandidateData) (jobdata : JobData) : String :=
  candidate.name ++ "さんは" ++ candidate.desired_location ++ "希望、働き方は" ++
    candidate.work_style_type ++ "。経験年数は" ++ toString candidate.experience_years ++
    "年。スキル: " ++ String.intercalate ", " candidate.skills ++ "。応募ポジション: " ++
    jobdata.job_title ++ "。"

/-- `match_by_id_with_reason_service` (services/matching.py), parametrized by
the `generate_match_reason` collaborator `gen`. -/
def match_by_id_with_reason_service (gen : String → String) (seeker_id : ℤ) (job_id : ℕ)
    (db : DBState) (today : ℤ) : Except String MatchWithReasonResponse × DBState :=
  match db_get_seeker db seeker_id, db_get_job db job_id with
  | some seeker, some job =>
    let candidate := resolve_candidate_from_db today seeker
    let jobdata := resolve_job_from_db today job
    let sb := match_score_logic candidate jobdata candidate.priority_order
    let reason_text := gen (user_info_string candidate jobdata)
    let db2 :=
      if db.commit_fails then db
      else { db with matching_scores := db.matching_scores ++
              [{ job_seeker_id := seeker.id, job_posting_id := job.id,
                 score := sb.1, breakdown := sb.2, explanation := some reason_text }] }
    (Except.ok
      { match_score := sb.1
        message := match_message candidate.name jobdata.job_title sb.1
        breakdown := sb.2
        reason := reason_text }, db2)
  | _, _ => (Except.error "job_seeker or job_posting not found", db)

/-- One iteration of the scoring loop of `rank_jobs_for_seeker_service`. -/
def score_job (candidate : CandidateData) (today : ℤ) (job : JobPosting) :
    MatchRankingItem :=
  let jobdata := resolve_job_from_db today job
  let sb := match_score_logic candidate jobdata candidate.priority_order
  { job_posting_id := job.id
    title := job.title.getD ""
    score := sb.1
    breakdown := sb.2 }

/-- `rank_jobs_for_seeker_service` (services/matching.py): score every
posting, sort by score descending (Python's stable `list.sort` with
`reverse=True`, embedded as a stable merge sort on the flipped order), and
keep the first `max 1 top_k` entries. -/
def rank_jobs_for_seeker_service (seeker_id : ℤ) (db : DBState) (today : ℤ)
    (top_k : ℕ) : Except String MatchRankingResponse :=
  match db_get_seeker db seeker_id with
  | none => Except.error "job_seeker not found"
  | some seeker =>
    let candidate := resolve_candidate_from_db today seeker
    let scored := db.job_postings.map (score_job candidate today)
    let sorted := scored.mergeSort (fun a b => decide (b.score ≤ a.score))
    Except.ok { job_seeker_id := seeker_id, results := sorted.take (max 1 top_k) }

/-! ### Bounds on weights and factor values -/

lemma calculate_weight_one_le (f : String) (l : List String) :
    1 ≤ calculate_weight f l := by
  simp only [calculate_weight]
  split_ifs <;> norm_num

lemma calculate_weight_le (f : String) (l : List String) :
    calculate_weight f l ≤ 3/2 := by
  simp only [calculate_weight]
  split_ifs <;> norm_num

lemma calculate_weight_nonneg (f : String) (l : List String) :
    0 ≤ calculate_weight f l :=
  le_trans (by norm_num) (calculate_weight_one_le f l)

lemma experience_component_mem (c : CandidateData) (j : JobData) :
    0 ≤ experience_component c j ∧ experience_component c j ≤ 1 := by
  unfold experience_component
  by_cases h : c.experience_years < 1
  · simp [h]
  · cases hreq : j.experience_required with
    | none => simp [h, hreq]
    | some req =>
      simp only [h, hreq, if_false]
      split_ifs with h1 h2 <;> constructor <;> linarith

lemma location_component_mem (c : CandidateData) (j : JobData) :
    0 ≤ location_component c j ∧ location_component c j ≤ 1 := by
  unfold location_component
  split_ifs <;> norm_num

lemma salary_component_nonneg (c : CandidateData) (j : JobData) :
    0 ≤ salary_component c j := by
  unfold salary_component
  dsimp only
  split_ifs with h1 h2
  · exact le_refl 0
  · exact le_min (by norm_num) (by positivity)
  · exact le_max_left 0 _

lemma preference_component_mem (c : CandidateData) (j : JobData) :
    0 ≤ preference_component c j ∧ preference_component c j ≤ 1 := by
  unfold preference_component
  dsimp only
  split_ifs
  · exact ⟨sbert_nonneg _ _, sbert_le_one _ _⟩
  · norm_num

lemma availability_component_mem (c : CandidateData) (j : JobData) :
    0 ≤ availability_component c j ∧ availability_component c j ≤ 1 := by
  unfold availability_component
  dsimp only
  split_ifs <;> norm_num

lemma work_style_component_mem (c : CandidateData) (j : JobData) :
    0 ≤ work_style_component c j ∧ work_style_component c j ≤ 1 := by
  unfold work_style_component
  split_ifs
  · exact ⟨sbert_nonneg _ _, sbert_le_one _ _⟩
  · norm_num

lemma round2_unit {x : ℚ} (h0 : 0 ≤ x) (h1 : x ≤ 1) :
    0 ≤ round2 x ∧ round2 x ≤ 1 ∧ round2 (round2 x) = round2 x :=
  ⟨round2_nonneg h0, round2_le_one h1, round2_idem x⟩

lemma breakdown_values_mem (c : CandidateData) (j : JobData) :
    ∀ p ∈ score_breakdown c j, 0 ≤ p.2 ∧ p.2 ≤ 1 ∧ round2 p.2 = p.2 := by
  intro p hp
  simp only [score_breakdown, List.mem_cons, List.not_mem_nil, or_false] at hp
  rcases hp with rfl | rfl | rfl | rfl | rfl | rfl | rfl | rfl
  · exact round2_unit (sbert_nonneg _ _) (sbert_le_one _ _)
  · exact round2_unit (sbert_nonneg _ _) (sbert_le_one _ _)
  · exact round2_unit (experience_component_mem c j).1 (experience_component_mem c j).2
  · refine ⟨(location_component_mem c j).1, (location_component_mem c j).2, ?_⟩
    unfold location_component
    split_ifs <;> simp
  · exact round2_unit (le_min (salary_component_nonneg c j) (by norm_num)) (min_le_right _ _)
  · exact round2_unit (preference_component_mem c j).1 (preference_component_mem c j).2
  · exact round2_unit (availability_component_mem c j).1 (availability_component_mem c j).2
  · exact round2_unit (work_style_component_mem c j).1 (work_style_component_mem c j).2

lemma weighted_total_bounds (bd : List (String × ℚ)) (po : List String)
    (h : ∀ p ∈ bd, 0 ≤ p.2 ∧ p.2 ≤ 1) :
    0 ≤ weighted_total bd po ∧ weighted_total bd po ≤ 100 := by
  unfold weighted_total
  dsimp only
  by_cases hbd : bd = []
  · subst hbd
    constructor
    · exact round2_nonneg (by norm_num)
    · exact round2_le_hundred (by norm_num)
  · have hw : bd.map (fun p => calculate_weight p.1 po) ≠ [] := by
      simpa using hbd
    rw [if_neg hw]
    have hN0 : 0 ≤ (bd.map (fun p => p.2 * calculate_weight p.1 po)).sum := by
      apply List.sum_nonneg
      intro x hx
      obtain ⟨p, hp, rfl⟩ := List.mem_map.mp hx
      exact mul_nonneg (h p hp).1 (calculate_weight_nonneg _ _)
    have hD1 : ((bd.length : ℚ)) ≤ (bd.map (fun p => calculate_weight p.1 po)).sum := by
      have h1 : (bd.map (fun _ => (1 : ℚ))).sum ≤ (bd.map (fun p => calculate_weight p.1 po)).sum :=
        List.sum_le_sum (fun p _ => calculate_weight_one_le p.1 po)
      have h2 : (bd.map (fun _ => (1 : ℚ))).sum = (bd.length : ℚ) := by
        simp [List.map_const']
      linarith
    have hD0 : (0 : ℚ) < (bd.map (fun p => calculate_weight p.1 po)).sum := by
      have hl : 0 < (bd.length : ℚ) := by
        exact_mod_cast List.length_pos.mpr hbd
      linarith
    have hND : (bd.map (fun p => p.2 * calculate_weight p.1 po)).sum
        ≤ (bd.map (fun p => calculate_weight p.1 po)).sum := by
      apply List.sum_le_sum
      intro p hp
      have := mul_le_mul_of_nonneg_right (h p hp).2 (calculate_weight_nonneg p.1 po)
      linarith
    have hq0 : 0 ≤ (bd.map (fun p => p.2 * calculate_weight p.1 po)).sum /
        (bd.map (fun p => calculate_weight p.1 po)).sum := div_nonneg hN0 hD0.le
    have hq1 : (bd.map (fun p => p.2 * calculate_weight p.1 po)).sum /
        (bd.map (fun p => calculate_weight p.1 po)).sum ≤ 1 := (div_le_one hD0).mpr hND
    constructor
    · exact round2_nonneg (by nlinarith)
    · exact round2_le_hundred (by nlinarith)

/-! ### Claim theorems -/

/-- C10: with the SBERT backend disabled, `sbert_similarity` is the Jaccard
fallback: it is symmetric, always lies in `[0, 1]`, and returns `0` whenever
either argument has no whitespace-separated tokens. -/
theorem sbert_similarity_fallback_contract (a b : String) :
    sbert_similarity a b = sbert_similarity b a ∧
    (0 ≤ sbert_similarity a b ∧ sbert_similarity a b ≤ 1) ∧
    (tokens a = [] ∨ tokens b = [] → sbert_similarity a b = 0) :=
  ⟨sbert_comm a b, ⟨sbert_nonneg a b, sbert_le_one a b⟩,
   fun h => h.elim sbert_of_left_nil sbert_of_right_nil⟩

/-- Witness for C10: the implication fires on a whitespace-only first
argument. -/
theorem sbert_similarity_fallback_contract_witness :
    sbert_similarity "  " "x y" = 0 :=
  (sbert_similarity_fallback_contract "  " "x y").2.2 (Or.inl rfl)

/-- C3: the breakdown returned by `match_score_logic` has exactly the eight
fixed factor keys in order; every value lies in `[0, 1]` and is a fixed
point of two-decimal rounding (it is the factor value rounded once, at
emission); and the returned total lies in `[0, 100]`.  The similarity
collaborator is the fallback `sbert_similarity`, which provably returns
values in `[0, 1]`. -/
theorem match_score_logic_contract (c : CandidateData) (j : JobData)
    (po : List String) :
    ((match_score_logic c j po).2.map Prod.fst =
      ["skill_score", "job_title_score", "experience_score", "location_score",
       "salary_score", "preference_score", "availability_score", "work_style_score"]) ∧
    (∀ p ∈ (match_score_logic c j po).2, 0 ≤ p.2 ∧ p.2 ≤ 1 ∧ round2 p.2 = p.2) ∧
    (0 ≤ (match_score_logic c j po).1 ∧ (match_score_logic c j po).1 ≤ 100) := by
  refine ⟨?_, ?_, ?_⟩
  · simp [match_score_logic, score_breakdown]
  · exact breakdown_values_mem c j
  · exact weighted_total_bounds (score_breakdown c j) c.priority_order
      (fun p hp => ⟨(breakdown_values_mem c j p hp).1, (breakdown_values_mem c j p hp).2.1⟩)

lemma salary_component_le_one (c : CandidateData) (j : JobData) :
    salary_component c j ≤ 1 := by
  unfold salary_component
  dsimp only
  split_ifs with h1 h2
  · norm_num
  · exact min_le_left _ _
  · have : |c.desired_salary - j.salary| / 200 ≥ 0 := by positivity
    apply max_le <;> linarith

lemma breakdown_lookup_experience (c : CandidateData) (j : JobData) :
    (score_breakdown c j).lookup "experience_score" =
      some (round2 (experience_component c j)) := by
  simp [score_breakdown, List.lookup]

lemma breakdown_lookup_salary (c : CandidateData) (j : JobData) :
    (score_breakdown c j).lookup "salary_score" =
      some (round2 (min (salary_component c j) 1)) := by
  simp [score_breakdown, List.lookup]

lemma breakdown_lookup_availability (c : CandidateData) (j : JobData) :
    (score_breakdown c j).lookup "availability_score" =
      some (round2 (availability_component c j)) := by
  simp [score_breakdown, List.lookup]

/-- The candidate of the C2 counterexample: only location and availability
match, and the stored priority order favours the location factor. -/
def c2cand : CandidateData :=
  { name := "A", desired_job := "", desired_location := "X", desired_salary := 0,
    available_start_date := 0, work_style_type := "", skills := [], job_preference := "",
    experience_years := 0, preference_tags := [], priority_order := ["location_score"] }

/-- The job of the C2 counterexample. -/
def c2job : JobData :=
  { job_title := "", job_location := "X", salary := 0, availability_required := 0,
    work_style_type := "", required_skills := [], optional_skills := [],
    culture_tags := [], experience_required := none }

lemma c2_breakdown : score_breakdown c2cand c2job =
    [("skill_score", 0), ("job_title_score", 0), ("experience_score", 0),
     ("location_score", 1), ("salary_score", 0), ("preference_score", 0),
     ("availability_score", 1), ("work_style_score", 0)] := by
  simp [score_breakdown, skill_component, job_title_component, experience_component,
    location_component, salary_component, preference_component, availability_component,
    work_style_component, c2cand, c2job]

/-- C2 counterexample: at `c2cand` / `c2job` with the priority-order
argument `[]`, the claim's formula (weights from the passed priority
order, all `1.0` here) yields `25`, but `match_score_logic` returns
`29.41`: its weighting loop reads `candidate.priority_order`
(`["location_score"]`), ignoring the `priority_order` parameter. -/
theorem match_score_priority_argument_counterexample :
    (match_score_logic c2cand c2job []).1 = 2941/100 ∧
    round2 (100 * (((match_score_logic c2cand c2job []).2.map
        (fun p => p.2 * calculate_weight p.1 ([] : List String))).sum /
      ((match_score_logic c2cand c2job []).2.map
        (fun p => calculate_weight p.1 ([] : List String))).sum)) = 25 ∧
    (2941/100 : ℚ) ≠ 25 := by
  refine ⟨?_, ?_, by norm_num⟩
  · have hpo : c2cand.priority_order = ["location_score"] := rfl
    simp only [match_score_logic, hpo]
    rw [c2_breakdown]
    simp [weighted_total, calculate_weight]
    norm_num [round2, round_eq, Int.floor_eq_iff]
  · simp only [match_score_logic]
    rw [c2_breakdown]
    simp [calculate_weight]
    norm_num [round2, round_eq, Int.floor_eq_iff]

/-- C2 (amended): `match_score_logic` returns
`round(100 × Σ(value·weight) / Σ(weight), 2)` where the weights come from
`candidate.priority_order` — the source's weighting loop reads the
candidate's stored field and ignores the `priority_order` parameter (at
every call site in the repository the two coincide).  The weight of a
factor is `1.5` when it is that order's first element, `1.3` when second,
`1.1` when third, and `1.0` otherwise (in particular for every factor not
in the order, so an empty order gives a plain average); the weight sum is
positive — at least `8` — so the guarded all-weights-zero case (totalScore
`0`) can never fire. -/
theorem match_score_weighted_average (c : CandidateData) (j : JobData)
    (po : List String) :
    ((match_score_logic c j po).1 =
      round2 (100 * (((match_score_logic c j po).2.map
          (fun p => p.2 * calculate_weight p.1 c.priority_order)).sum /
        ((match_score_logic c j po).2.map
          (fun p => calculate_weight p.1 c.priority_order)).sum))) ∧
    (8 ≤ ((match_score_logic c j po).2.map
        (fun p => calculate_weight p.1 c.priority_order)).sum) ∧
    (∀ f t, calculate_weight f (f :: t) = 3/2) ∧
    (∀ f a t, a ≠ f → calculate_weight f (a :: f :: t) = 13/10) ∧
    (∀ f a b t, a ≠ f → b ≠ f → calculate_weight f (a :: b :: f :: t) = 11/10) ∧
    (∀ f a b d t, a ≠ f → b ≠ f → d ≠ f → calculate_weight f (a :: b :: d :: t) = 1) ∧
    (∀ f l, f ∉ l → calculate_weight f l = 1) := by
  refine ⟨?_, ?_, ?_, ?_, ?_, ?_, ?_⟩
  · simp only [match_score_logic, weighted_total]
    have hw : (score_breakdown c j).map (fun p => calculate_weight p.1 c.priority_order) ≠ [] := by
      simp [score_breakdown]
    rw [if_neg hw, mul_comm]
  · simp only [match_score_logic, score_breakdown, List.map_cons, List.map_nil, List.sum_cons,
      List.sum_nil]
    have h1 := calculate_weight_one_le "skill_score" c.priority_order
    have h2 := calculate_weight_one_le "job_title_score" c.priority_order
    have h3 := calculate_weight_one_le "experience_score" c.priority_order
    have h4 := calculate_weight_one_le "location_score" c.priority_order
    have h5 := calculate_weight_one_le "salary_score" c.priority_order
    have h6 := calculate_weight_one_le "preference_score" c.priority_order
    have h7 := calculate_weight_one_le "availability_score" c.priority_order
    have h8 := calculate_weight_one_le "work_style_score" c.priority_order
    linarith
  · intro f t
    simp [calculate_weight]
  · intro f a t h
    simp [calculate_weight, List.indexOf_cons_ne _ (fun hc => h hc.symm), h]
  · intro f a b t ha hb
    simp [calculate_weight, List.indexOf_cons_ne _ (fun hc => ha hc.symm),
      List.indexOf_cons_ne _ (fun hc => hb hc.symm), ha, hb]
  · intro f a b d t ha hb hd
    by_cases hf : f ∈ t
    · simp [calculate_weight, List.indexOf_cons_ne _ (fun hc => ha hc.symm),
        List.indexOf_cons_ne _ (fun hc => hb hc.symm),
        List.indexOf_cons_ne _ (fun hc => hd hc.symm), ha, hb, hd, hf]
    · have : f ∉ (a :: b :: d :: t) := by
        simp only [List.mem_cons, not_or]
        exact ⟨fun hc => ha hc.symm, fun hc => hb hc.symm, fun hc => hd hc.symm, hf⟩
      simp [calculate_weight, this]
  · intro f l hf
    simp [calculate_weight, hf]

/-- Witness for C2 (amended): the second-position weight at a concrete
order. -/
theorem match_score_weighted_average_witness :
    calculate_weight "salary_score" ["skill_score", "salary_score"] = 13/10 :=
  (match_score_weighted_average c2cand c2job []).2.2.2.1
    "salary_score" "skill_score" [] (by decide)

/-- A candidate varying only in experience years, for the C6 edge cases. -/
def c6cand (y : ℚ) : CandidateData :=
  { name := "", desired_job := "", desired_location := "", desired_salary := 0,
    available_start_date := 0, work_style_type := "", skills := [], job_preference := "",
    experience_years := y, preference_tags := [], priority_order := [] }

/-- A job varying only in required experience, for the C6 edge cases. -/
def c6job (req : Option ℚ) : JobData :=
  { job_title := "", job_location := "", salary := 0, availability_required := 0,
    work_style_type := "", required_skills := [], optional_skills := [],
    culture_tags := [], experience_required := req }

/-- C6: the `experience_score` entry of the breakdown is the two-decimal
rounding of: `0` when experience is under a year; `1` when the job states
no requirement; else, with `gap = required − years`, `1` for `gap ≤ 0`
(over-qualification never penalized), `1 − gap/6` for `0 < gap ≤ 3`, and
`1/2` beyond — and the stated edge cases hold. -/
theorem experience_factor_contract :
    (∀ (c : CandidateData) (j : JobData) (po : List String),
      (match_score_logic c j po).2.lookup "experience_score" =
        some (round2 (
          if c.experience_years < 1 then 0
          else
            match j.experience_required with
            | none => 1
            | some req =>
              if req - c.experience_years ≤ 0 then 1
              else if req - c.experience_years ≤ 3 then 1 - (req - c.experience_years) / 6
              else 1/2))) ∧
    (∀ (j : JobData) (po : List String),
      (match_score_logic (c6cand (9/10)) j po).2.lookup "experience_score" = some 0) ∧
    (match_score_logic (c6cand 5) (c6job none) []).2.lookup "experience_score" = some 1 ∧
    (match_score_logic (c6cand 5) (c6job (some 5)) []).2.lookup "experience_score" = some 1 ∧
    (match_score_logic (c6cand 5) (c6job (some 8)) []).2.lookup "experience_score" = some (1/2) ∧
    (match_score_logic (c6cand 5) (c6job (some 12)) []).2.lookup "experience_score" = some (1/2) := by
  have key : ∀ (c : CandidateData) (j : JobData) (po : List String),
      (match_score_logic c j po).2.lookup "experience_score" =
        some (round2 (experience_component c j)) := by
    intro c j po
    simpa [match_score_logic] using breakdown_lookup_experience c j
  refine ⟨?_, ?_, ?_, ?_, ?_, ?_⟩
  · intro c j po
    rw [key]
    rfl
  · intro j po
    rw [key]
    have : experience_component (c6cand (9/10)) j = 0 := by
      unfold experience_component
      norm_num [c6cand]
    rw [this, round2_zero]
  · rw [key]
    have : experience_component (c6cand 5) (c6job none) = 1 := by
      norm_num [experience_component, c6cand, c6job]
    rw [this, round2_one]
  · rw [key]
    have : experience_component (c6cand 5) (c6job (some 5)) = 1 := by
      norm_num [experience_component, c6cand, c6job]
    rw [this, round2_one]
  · rw [key]
    have h : experience_component (c6cand 5) (c6job (some 8)) = 1/2 := by
      norm_num [experience_component, c6cand, c6job]
    rw [h]
    norm_num [round2, round_eq, Int.floor_eq_iff]
  · rw [key]
    have h : experience_component (c6cand 5) (c6job (some 12)) = 1/2 := by
      norm_num [experience_component, c6cand, c6job]
    rw [h]
    norm_num [round2, round_eq, Int.floor_eq_iff]

/-- A candidate varying only in desired salary, for the C7 edge cases. -/
def c7cand (d : ℚ) : CandidateData :=
  { name := "", desired_job := "", desired_location := "", desired_salary := d,
    available_start_date := 0, work_style_type := "", skills := [], job_preference := "",
    experience_years := 0, preference_tags := [], priority_order := [] }

/-- A job varying only in offered salary, for the C7 edge cases. -/
def c7job (s : ℚ) : JobData :=
  { job_title := "", job_location := "", salary := s, availability_required := 0,
    work_style_type := "", required_skills := [], optional_skills := [],
    culture_tags := [], experience_required := none }

/-- C7: the `salary_score` entry is the two-decimal rounding of: `0` when
the offer is non-positive; else, with `gap = |desired − offer|` and
`raw = max 0 (1 − gap/200)`, the boosted-and-capped `min 1 (raw × 1.05)`
when `desired ≤ offer` and `raw` otherwise (the source's extra
`min _ 1.0` at emission is the identity since the value never exceeds
`1`); in particular desired `500` against offer `500` gives `1` and
desired `700` against offer `500` gives `0`. -/
theorem salary_factor_contract :
    (∀ (c : CandidateData) (j : JobData) (po : List String),
      (match_score_logic c j po).2.lookup "salary_score" =
        some (round2 (
          if j.salary ≤ 0 then 0
          else if c.desired_salary ≤ j.salary then
            min 1 ((max 0 (1 - |c.desired_salary - j.salary| / 200)) * (21/20))
          else max 0 (1 - |c.desired_salary - j.salary| / 200)))) ∧
    (match_score_logic (c7cand 500) (c7job 500) []).2.lookup "salary_score" = some 1 ∧
    (match_score_logic (c7cand 700) (c7job 500) []).2.lookup "salary_score" = some 0 := by
  have key : ∀ (c : CandidateData) (j : JobData) (po : List String),
      (match_score_logic c j po).2.lookup "salary_score" =
        some (round2 (min (salary_component c j) 1)) := by
    intro c j po
    simpa [match_score_logic] using breakdown_lookup_salary c j
  have hmin : ∀ (c : CandidateData) (j : JobData),
      min (salary_component c j) 1 = salary_component c j :=
    fun c j => min_eq_left (salary_component_le_one c j)
  refine ⟨?_, ?_, ?_⟩
  · intro c j po
    rw [key, hmin]
    rfl
  · rw [key, hmin]
    have : salary_component (c7cand 500) (c7job 500) = 1 := by
      norm_num [salary_component, c7cand, c7job]
    rw [this, round2_one]
  · rw [key, hmin]
    have : salary_component (c7cand 700) (c7job 500) = 0 := by
      norm_num [salary_component, c7cand, c7job]
    rw [this, round2_zero]

/-- A candidate varying only in its availability date, for C8. -/
def c8cand (start : ℤ) : CandidateData :=
  { name := "", desired_job := "", desired_location := "", desired_salary := 0,
    available_start_date := start, work_style_type := "", skills := [], job_preference := "",
    experience_years := 0, preference_tags := [], priority_order := [] }

/-- A job varying only in its required availability date, for C8. -/
def c8job (required : ℤ) : JobData :=
  { job_title := "", job_location := "", salary := 0, availability_required := required,
    work_style_type := "", required_skills := [], optional_skills := [],
    culture_tags := [], experience_required := none }

/-- C8: the `availability_score` entry depends only on the day difference
`d = availability_required − available_start_date` and equals `1` when
`d ≤ 30` (so for every negative `d` too), `0.7` when `30 < d ≤ 90`, and
`0.3` when `d > 90`; checked here at `d = 10, -25, 60, 120`. -/
theorem availability_factor_contract :
    (∀ (c : CandidateData) (j : JobData) (po : List String),
      (match_score_logic c j po).2.lookup "availability_score" =
        some (
          if j.availability_required - c.available_start_date ≤ 30 then 1
          else if j.availability_required - c.available_start_date ≤ 90 then 7/10
          else 3/10)) ∧
    (match_score_logic (c8cand 0) (c8job 10) []).2.lookup "availability_score" = some 1 ∧
    (match_score_logic (c8cand 0) (c8job (-25)) []).2.lookup "availability_score" = some 1 ∧
    (match_score_logic (c8cand 0) (c8job 60) []).2.lookup "availability_score" = some (7/10) ∧
    (match_score_logic (c8cand 0) (c8job 120) []).2.lookup "availability_score" = some (3/10) := by
  have key : ∀ (c : CandidateData) (j : JobData) (po : List String),
      (match_score_logic c j po).2.lookup "availability_score" =
        some (
          if j.availability_required - c.available_start_date ≤ 30 then 1
          else if j.availability_required - c.available_start_date ≤ 90 then 7/10
          else 3/10) := by
    intro c j po
    have h := breakdown_lookup_availability c j
    have hval : round2 (availability_component c j) =
        (if j.availability_required - c.available_start_date ≤ 30 then 1
         else if j.availability_required - c.available_start_date ≤ 90 then (7:ℚ)/10
         else 3/10) := by
      unfold availability_component
      dsimp only
      split_ifs
      · exact round2_one
      · norm_num [round2, round_eq, Int.floor_eq_iff]
      · norm_num [round2, round_eq, Int.floor_eq_iff]
    simpa [match_score_logic, hval] using h
  refine ⟨key, ?_, ?_, ?_, ?_⟩
  · rw [key]
    norm_num [c8cand, c8job]
  · rw [key]
    norm_num [c8cand, c8job]
  · rw [key]
    norm_num [c8cand, c8job]
  · rw [key]
    norm_num [c8cand, c8job]

/-! ### C5: priority normalization and the fetch that never reads it -/

/-- First-occurrence deduplication with a seen-accumulator: the effect of
the spec's "append only if non-absent and not already present" loop. -/
def firstDedupAux : List String → List String → List String
  | [], _ => []
  | a :: l, seen => if a ∈ seen then firstDedupAux l seen else a :: firstDedupAux l (a :: seen)

/-- Keep the first occurrence of every element, in order. -/
def firstDedup (l : List String) : List String :=
  firstDedupAux l []

/-- The PriorityOrder build the claims describe, written from the spec's
words (§4.2): the seeker's stored priority rows in ascending-rank order
(the model's explicit rank column, falling back to the record id when a
row has none), each stored code normalized, first occurrences kept, and
the default order when the list comes out empty.  Spec-side definition,
for comparison with the source's `fetch_priority_order`. -/
def spec_priority_order_build (rows : List JobSeekerPriority) (seeker_id : ℤ) : List String :=
  let sorted_rows :=
    (rows.filter (fun r => r.job_seeker_id = seeker_id)).mergeSort
      (fun a b => decide (a.priority_rank.getD a.id ≤ b.priority_rank.getD b.id))
  let codes := firstDedup
    (sorted_rows.filterMap (fun r => normalize_priority_code r.priority_category))
  if codes = [] then ["skill_score", "job_title_score", "salary_score"] else codes

lemma foldl_raw_code_nil (rows : List JobSeekerPriority) (acc : List String) :
    rows.foldl
      (fun order r =>
        match normalize_priority_code (row_raw_code r) with
        | some normalized => if normalized ∈ order then order else order ++ [normalized]
        | none => order) acc = acc := by
  induction rows generalizing acc with
  | nil => rfl
  | cons r rest ih => exact ih acc

/-- The three `job_seeker_priorities` rows of the spec's normalization
example, on the concrete model: stored codes `"title"`, `"skill"`,
`"title"` in `priority_category`, ranks 1, 2, 3. -/
def exampleRows : List JobSeekerPriority :=
  [{ id := 1, job_seeker_id := 1, priority_rank := some 1, priority_category := some "title" },
   { id := 2, job_seeker_id := 1, priority_rank := some 2, priority_category := some "skill" },
   { id := 3, job_seeker_id := 1, priority_rank := some 3, priority_category := some "title" }]

/-- C5: `_normalize_priority_code` does map raw codes through the alias
table as claimed, but `_fetch_priority_order` never uses a stored code:
its attribute probes (`matching_field`, `category_code`, `category`) all
miss the concrete model's `priority_category` column, and its sort-column
probes miss `priority_rank`, so it returns the default order for **every**
row set — against the function's own docstring, which promises the
normalized stored priorities in ascending order.  On the spec's
title/skill/title example the claimed build gives
`[job_title_score, skill_score]`; the code returns the default. -/
theorem priority_fetch_constant_default :
    (normalize_priority_code (some "Skills") = some "skill_score") ∧
    (normalize_priority_code (some " Comp ") = some "salary_score") ∧
    (normalize_priority_code (some "unknown_code") = none) ∧
    (normalize_priority_code none = none) ∧
    (∀ (rows : List JobSeekerPriority) (sid : ℤ),
      fetch_priority_order rows sid = ["skill_score", "job_title_score", "salary_score"]) ∧
    (fetch_priority_order exampleRows 1 = ["skill_score", "job_title_score", "salary_score"]) ∧
    (spec_priority_order_build exampleRows 1 = ["job_title_score", "skill_score"]) ∧
    (["skill_score", "job_title_score", "salary_score"] ≠
      (["job_title_score", "skill_score"] : List String)) := by
  have hconst : ∀ (rows : List JobSeekerPriority) (sid : ℤ),
      fetch_priority_order rows sid = ["skill_score", "job_title_score", "salary_score"] := by
    intro rows sid
    unfold fetch_priority_order
    dsimp only
    rw [foldl_raw_code_nil]
    rfl
  refine ⟨by decide, by decide, by decide, rfl, hconst, hconst exampleRows 1, ?_, by decide⟩
  have hfil : exampleRows.filter (fun r => r.job_seeker_id = 1) = exampleRows := by decide
  have hsorted : List.Pairwise (fun a b : JobSeekerPriority =>
      (decide (a.priority_rank.getD a.id ≤ b.priority_rank.getD b.id)) = true) exampleRows := by
    decide
  unfold spec_priority_order_build
  dsimp only
  rw [hfil, List.mergeSort_of_sorted hsorted]
  decide

/-! ### C1: the ranking path and the priority rows -/

/-- A stored priority row naming the location factor, for C1. -/
def c1row : JobSeekerPriority :=
  { id := 1, job_seeker_id := 7, priority_rank := some 1,
    priority_category := some "location" }

/-- The seeker of the C1 failing input. -/
def c1seeker : JobSeeker :=
  { id := 7, name := "A", desired_job := none, desired_location := some "X",
    desired_salary := none, available_start_date := some 0, work_style_type := none,
    skills := [], tags := [], histories := [] }

/-- The catalog job of the C1 failing input. -/
def c1job : JobPosting :=
  { id := 3, title := none, location := some "X", salary := none,
    start_date := some 0, work_style_type := none, skills := [], tags := [] }

/-- The session of the C1 failing input. -/
def c1db : DBState :=
  { job_seekers := [c1seeker], job_postings := [c1job],
    job_seeker_priorities := [c1row], matching_scores := [], commit_fails := false }

/-- C1: the ranking service does **not** score with the PriorityOrder built
from the seeker's stored priority rows.  At `c1db`, the rows build
`["location_score"]` under the claim's rules (`spec_priority_order_build`),
but `rank_jobs_for_seeker_service` goes through the service-layer
`resolve_candidate_from_db`, which hard-codes the default order (its
source carries the TODO `prioritiesをjob_seeker_prioritiesから取得して…`)
and never queries the rows, and the divergence is observable: the ranking
returns the score `22.47` where scoring with the built PriorityOrder
gives `29.41`. -/
theorem ranking_ignores_priority_rows :
    spec_priority_order_build c1db.job_seeker_priorities 7 = ["location_score"] ∧
    (resolve_candidate_from_db 0 c1seeker).priority_order =
      ["skill_score", "job_title_score", "salary_score"] ∧
    rank_jobs_for_seeker_service 7 c1db 0 10 =
      Except.ok { job_seeker_id := 7,
                  results := [score_job (resolve_candidate_from_db 0 c1seeker) 0 c1job] } ∧
    (score_job (resolve_candidate_from_db 0 c1seeker) 0 c1job).score = 2247/100 ∧
    (match_score_logic
        { resolve_candidate_from_db 0 c1seeker with
            priority_order := spec_priority_order_build c1db.job_seeker_priorities 7 }
        (resolve_job_from_db 0 c1job)
        (spec_priority_order_build c1db.job_seeker_priorities 7)).1 = 2941/100 ∧
    (2247/100 : ℚ) ≠ 2941/100 := by
  have hbuild : spec_priority_order_build c1db.job_seeker_priorities 7 = ["location_score"] := by
    have hfil : c1db.job_seeker_priorities.filter (fun r => r.job_seeker_id = 7) = [c1row] := by
      decide
    unfold spec_priority_order_build
    dsimp only
    rw [hfil, List.mergeSort_singleton]
    decide
  have hcand : resolve_candidate_from_db 0 c1seeker =
      { name := "A", desired_job := "", desired_location := "X", desired_salary := 0,
        available_start_date := 0, work_style_type := "", skills := [], job_preference := "",
        experience_years := 0, preference_tags := [],
        priority_order := ["skill_score", "job_title_score", "salary_score"] } := by
    simp [resolve_candidate_from_db, c1seeker]
  have hjob : resolve_job_from_db 0 c1job = c2job := by
    simp [resolve_job_from_db, c1job, c2job]
  have hbd : score_breakdown (resolve_candidate_from_db 0 c1seeker)
      (resolve_job_from_db 0 c1job) =
      [("skill_score", 0), ("job_title_score", 0), ("experience_score", 0),
       ("location_score", 1), ("salary_score", 0), ("preference_score", 0),
       ("availability_score", 1), ("work_style_score", 0)] := by
    rw [hcand, hjob]
    simp [score_breakdown, skill_component, job_title_component, experience_component,
      location_component, salary_component, preference_component, availability_component,
      work_style_component, c2job]
  have hscore : (score_job (resolve_candidate_from_db 0 c1seeker) 0 c1job).score
      = 2247/100 := by
    simp only [score_job, match_score_logic]
    rw [hbd, hcand]
    simp [weighted_total, calculate_weight]
    norm_num [round2, round_eq, Int.floor_eq_iff]
  refine ⟨hbuild, by rw [hcand], ?_, hscore, ?_, by norm_num⟩
  · unfold rank_jobs_for_seeker_service
    have hget : db_get_seeker c1db 7 = some c1seeker := rfl
    rw [hget]
    simp [c1db, List.mergeSort_singleton]
  · rw [hbuild]
    have hc2 : ({ resolve_candidate_from_db 0 c1seeker with
        priority_order := ["location_score"] } : CandidateData) = c2cand := by
      rw [hcand]
      rfl
    rw [hc2, hjob]
    have hpo : c2cand.priority_order = ["location_score"] := rfl
    simp only [match_score_logic, hpo]
    rw [c2_breakdown]
    simp [weighted_total, calculate_weight]
    norm_num [round2, round_eq, Int.floor_eq_iff]

/-! ### C4: the ranking result is sorted, stable and truncated -/

lemma rank_le_trans (a b c : MatchRankingItem)
    (hab : decide (b.score ≤ a.score) = true) (hbc : decide (c.score ≤ b.score) = true) :
    decide (c.score ≤ a.score) = true :=
  decide_eq_true (le_trans (of_decide_eq_true hbc) (of_decide_eq_true hab))

lemma rank_le_total (a b : MatchRankingItem) :
    (decide (b.score ≤ a.score) || decide (a.score ≤ b.score)) = true := by
  rcases le_total b.score a.score with h | h <;> simp [h]

/-- C4: when the seeker exists, the ranking succeeds and its result list is
sorted by score descending; among entries of equal score the original
catalog iteration order is preserved (the filter at any score level is a
sublist of the catalog's scored list); and the list is cut to
`max 1 top_k` entries, so `top_k = 0` still yields a result on a
non-empty catalog. -/
theorem ranking_sorted_stable_truncated (sid : ℤ) (db : DBState) (today : ℤ) (k : ℕ)
    (seeker : JobSeeker) (h : db_get_seeker db sid = some seeker) :
    ∃ resp, rank_jobs_for_seeker_service sid db today k = Except.ok resp ∧
      resp.results.Pairwise (fun a b => b.score ≤ a.score) ∧
      resp.results.length = min (max 1 k) db.job_postings.length ∧
      (∀ s : ℚ, List.Sublist
        (resp.results.filter (fun it => decide (it.score = s)))
        ((db.job_postings.map (score_job (resolve_candidate_from_db today seeker) today)).filter
          (fun it => decide (it.score = s)))) ∧
      (db.job_postings ≠ [] → 1 ≤ resp.results.length) := by
  unfold rank_jobs_for_seeker_service
  rw [h]
  refine ⟨_, rfl, ?_, ?_, ?_, ?_⟩
  · dsimp only
    have hs := List.sorted_mergeSort rank_le_trans rank_le_total
      (db.job_postings.map (score_job (resolve_candidate_from_db today seeker) today))
    have hp := List.Pairwise.sublist
      (List.take_sublist (max 1 k)
        ((db.job_postings.map (score_job (resolve_candidate_from_db today seeker) today)).mergeSort
          (fun a b => decide (b.score ≤ a.score)))) hs
    exact hp.imp (fun hab => of_decide_eq_true hab)
  · dsimp only
    rw [List.length_take, List.length_mergeSort, List.length_map]
  · intro s
    dsimp only
    set scored := db.job_postings.map (score_job (resolve_candidate_from_db today seeker) today)
      with hscored
    have hmemA : ∀ x ∈ scored.filter (fun it => decide (it.score = s)), x.score = s := by
      intro x hx
      exact of_decide_eq_true (List.mem_filter.mp hx).2
    have hApw : (scored.filter (fun it => decide (it.score = s))).Pairwise
        (fun a b => decide (b.score ≤ a.score) = true) := by
      apply List.pairwise_of_forall_mem_list
      intro a ha b hb
      rw [hmemA a ha, hmemA b hb]
      simp
    have hA : List.Sublist (scored.filter (fun it => decide (it.score = s)))
        (scored.mergeSort (fun a b => decide (b.score ≤ a.score))) :=
      List.sublist_mergeSort rank_le_trans rank_le_total hApw (List.filter_sublist _)
    have hAB : List.Sublist (scored.filter (fun it => decide (it.score = s)))
        ((scored.mergeSort (fun a b => decide (b.score ≤ a.score))).filter
          (fun it => decide (it.score = s))) := by
      have h2 := hA.filter (fun it => decide (it.score = s))
      rw [List.filter_filter] at h2
      have heq : (scored.filter (fun a => decide (a.score = s) && decide (a.score = s)))
          = scored.filter (fun it => decide (it.score = s)) :=
        List.filter_congr (fun x _ => Bool.and_self _)
      rwa [heq] at h2
    have hperm : List.Perm
        ((scored.mergeSort (fun a b => decide (b.score ≤ a.score))).filter
          (fun it => decide (it.score = s)))
        (scored.filter (fun it => decide (it.score = s))) :=
      (List.mergeSort_perm scored _).filter _
    have hstable := (hAB.eq_of_length hperm.length_eq.symm).symm
    have htake := (List.take_sublist (max 1 k)
        (scored.mergeSort (fun a b => decide (b.score ≤ a.score)))).filter
      (fun it => decide (it.score = s))
    rw [hstable] at htake
    exact htake
  · intro hne
    dsimp only
    rw [List.length_take, List.length_mergeSort, List.length_map]
    have h1 : 1 ≤ db.job_postings.length := List.length_pos.mpr hne
    omega

/-- A session with one seeker and one catalog job, for the C4 witness. -/
def w4db : DBState :=
  { job_seekers := [c1seeker], job_postings := [c1job],
    job_seeker_priorities := [], matching_scores := [], commit_fails := false }

/-- Witness for C4 at `top_k = 0` over a one-job catalog. -/
theorem ranking_sorted_stable_truncated_witness :
    ∃ resp, rank_jobs_for_seeker_service 7 w4db 0 0 = Except.ok resp ∧
      resp.results.Pairwise (fun a b => b.score ≤ a.score) ∧
      resp.results.length = min (max 1 0) w4db.job_postings.length ∧
      (∀ s : ℚ, List.Sublist
        (resp.results.filter (fun it => decide (it.score = s)))
        ((w4db.job_postings.map (score_job (resolve_candidate_from_db 0 c1seeker) 0)).filter
          (fun it => decide (it.score = s)))) ∧
      (w4db.job_postings ≠ [] → 1 ≤ resp.results.length) :=
  ranking_sorted_stable_truncated 7 w4db 0 0 c1seeker rfl

/-! ### C9: score persistence is best-effort -/

/-- C9: for an existing seeker/job pair, both by-id scoring services return
`ok` with the same score, message and breakdown whether or not the
best-effort `MatchingScore` write raises; on failure the write is rolled
back, leaving the whole session state unchanged, and no exception
propagates. -/
theorem persistence_failure_invisible (gen : String → String) (sid : ℤ) (jid : ℕ)
    (db : DBState) (today : ℤ) (seeker : JobSeeker) (job : JobPosting)
    (hs : db_get_seeker db sid = some seeker) (hj : db_get_job db jid = some job) :
    ((match_by_id_service sid jid { db with commit_fails := true } today).1
        = (match_by_id_service sid jid { db with commit_fails := false } today).1) ∧
    ((match_by_id_service sid jid { db with commit_fails := true } today).2
        = { db with commit_fails := true }) ∧
    (∃ r, (match_by_id_service sid jid { db with commit_fails := true } today).1
        = Except.ok r) ∧
    ((match_by_id_with_reason_service gen sid jid { db with commit_fails := true } today).1
        = (match_by_id_with_reason_service gen sid jid { db with commit_fails := false } today).1) ∧
    ((match_by_id_with_reason_service gen sid jid { db with commit_fails := true } today).2
        = { db with commit_fails := true }) ∧
    (∃ r2, (match_by_id_with_reason_service gen sid jid { db with commit_fails := true } today).1
        = Except.ok r2) := by
  have hsT : db_get_seeker { db with commit_fails := true } sid = some seeker := hs
  have hjT : db_get_job { db with commit_fails := true } jid = some job := hj
  have hsF : db_get_seeker { db with commit_fails := false } sid = some seeker := hs
  have hjF : db_get_job { db with commit_fails := false } jid = some job := hj
  refine ⟨?_, ?_, ?_, ?_, ?_, ?_⟩
  · unfold match_by_id_service
    rw [hsT, hjT, hsF, hjF]
  · unfold match_by_id_service
    rw [hsT, hjT]
    rfl
  · unfold match_by_id_service
    rw [hsT, hjT]
    exact ⟨_, rfl⟩
  · unfold match_by_id_with_reason_service
    rw [hsT, hjT, hsF, hjF]
  · unfold match_by_id_with_reason_service
    rw [hsT, hjT]
    rfl
  · unfold match_by_id_with_reason_service
    rw [hsT, hjT]
    exact ⟨_, rfl⟩

/-- Witness for C9 at the concrete session `c1db`. -/
theorem persistence_failure_invisible_witness :
    ((match_by_id_service 7 3 { c1db with commit_fails := true } 0).1
        = (match_by_id_service 7 3 { c1db with commit_fails := false } 0).1) ∧
    ((match_by_id_service 7 3 { c1db with commit_fails := true } 0).2
        = { c1db with commit_fails := true }) ∧
    (∃ r, (match_by_id_service 7 3 { c1db with commit_fails := true } 0).1
        = Except.ok r) ∧
    ((match_by_id_with_reason_service (fun _ => "reason") 7 3
          { c1db with commit_fails := true } 0).1
        = (match_by_id_with_reason_service (fun _ => "reason") 7 3
          { c1db with commit_fails := false } 0).1) ∧
    ((match_by_id_with_reason_service (fun _ => "reason") 7 3
          { c1db with commit_fails := true } 0).2
        = { c1db with commit_fails := true }) ∧
    (∃ r2, (match_by_id_with_reason_service (fun _ => "reason") 7 3
          { c1db with commit_fails := true } 0).1
        = Except.ok r2) :=
  persistence_failure_invisible (fun _ => "reason") 7 3 c1db 0 c1seeker c1job rfl rfl

end Matching
